import Mathlib

/-!
Shallow embedding of the E-Commerce-Fraud-Detector hybrid decision engine:

* `backend/utils/xai.py` — `assemble_decision` (score fusion / decision assembly)
* `backend/rules/rule_engine.py` — `review_rules`, `tx_rules`
* `backend/pipelines/review_pipeline.py` — `engineer_review_features`
* `backend/pipelines/tx_pipeline.py` — `engineer_tx_features`

Python floats are modelled as rationals (`ℚ`); Python strings as `String`;
the feature dictionary as an insertion-ordered association list; the
SQLAlchemy session as a record of query functions returning `Except`,
since a failed store access surfaces as an exception in the source.
-/

namespace FraudDetector

/-- A value stored in the feature dictionary: the pipelines store numbers
for every engineered feature and strings for the raw metadata entries
(`review_text`, `currency`, `channel`). -/
inductive FeatVal where
  | num (q : ℚ)
  | str (s : String)
  deriving DecidableEq, Repr

/-- The feature dictionary (Python `dict`, insertion ordered; every key is
assigned exactly once in the source, so an ordered association list is a
faithful model). -/
abbrev Features := List (String × FeatVal)

/-- `features.get(k, d)` for the numeric features of the rule engine:
the stored number when `k` is present with a numeric value, else the
default `d`. -/
def getNum (features : Features) (k : String) (d : ℚ) : ℚ :=
  match features.lookup k with
  | some (FeatVal.num q) => q
  | _ => d

/-- Error raised when the historical store accessor (the database session)
fails mid-aggregation; the pipelines contain no `try/except`, so any such
failure propagates to the caller. -/
inductive HErr where
  | historyUnavailable
  deriving DecidableEq, Repr

/-! ### `backend/utils/xai.py` -/

/-- Python `round` to an integer: round-half-to-even (banker's rounding).
(`Rat.floor` is used rather than `⌊·⌋` so that the definition evaluates by
kernel reduction; the two agree, see `rat_floor_eq_int_floor`.) -/
def roundHalfEven (q : ℚ) : ℤ :=
  if q - q.floor < 1 / 2 then q.floor
  else if 1 / 2 < q - q.floor then q.floor + 1
  else if q.floor % 2 = 0 then q.floor else q.floor + 1

theorem rat_floor_eq_int_floor (q : ℚ) : q.floor = ⌊q⌋ :=
  (Rat.floor_def' q).trans Rat.floor_def.symm

/-- Python `round(q, n)`: round to `n` decimal places, half to even. -/
def pyRound (q : ℚ) (n : ℕ) : ℚ :=
  (roundHalfEven (q * 10 ^ n) : ℚ) / 10 ^ n

/-- `y` is `x` rounded to `n` decimal places: a multiple of `10^(-n)`
within half a unit in the last place of `x`. -/
def IsRoundedTo (y x : ℚ) (n : ℕ) : Prop :=
  (∃ k : ℤ, y = (k : ℚ) / 10 ^ n) ∧ |y - x| ≤ 1 / (2 * 10 ^ n)

/-- The decision record returned by `assemble_decision`
(`backend/utils/xai.py`, lines 35–45). -/
structure Decision where
  decision : Bool
  confidence : String
  score_model : ℚ
  score_rules : ℚ
  score_final : ℚ
  threshold : ℚ
  reasons : List String
  model_contribution : ℚ
  rules_contribution : ℚ
  deriving DecidableEq, Repr

/-- `final_score = min(1.0, max(0.0, score_model + rule_boost))`
(`backend/utils/xai.py`, line 26). -/
def finalScore (score_model rule_boost : ℚ) : ℚ :=
  min 1 (max 0 (score_model + rule_boost))

/-- `assemble_decision` (`backend/utils/xai.py`, lines 7–45). The source
performs no input validation and has no raising path, so the embedding is
a total function. -/
def assemble_decision (score_model threshold rule_boost : ℚ)
    (rule_reasons : List String) : Decision :=
  let final_score := finalScore score_model rule_boost
  let is_fraud : Bool := decide (final_score ≥ threshold)
  let distance_from_threshold := |final_score - threshold|
  let confidence : String :=
    if distance_from_threshold > 0.2 then "high"
    else if distance_from_threshold > 0.1 then "medium"
    else "low"
  { decision := is_fraud
    confidence := confidence
    score_model := pyRound score_model 4
    score_rules := pyRound rule_boost 4
    score_final := pyRound final_score 4
    threshold := threshold
    reasons := rule_reasons
    model_contribution :=
      pyRound (if final_score > 0 then score_model / final_score * 100 else 100) 1
    rules_contribution :=
      pyRound (if final_score > 0 then rule_boost / final_score * 100 else 0) 1 }

/-! ### Rounding facts -/

theorem abs_roundHalfEven_sub (x : ℚ) : |(roundHalfEven x : ℚ) - x| ≤ 1 / 2 := by
  have hfl : ((⌊x⌋ : ℚ)) ≤ x := Int.floor_le x
  have hfu : x < (⌊x⌋ : ℚ) + 1 := Int.lt_floor_add_one x
  unfold roundHalfEven
  rw [rat_floor_eq_int_floor]
  split_ifs with h1 h2 h3
  · rw [abs_le]; constructor <;> linarith
  · push_cast
    rw [abs_le]; constructor <;> linarith
  · rw [abs_le]; constructor <;> linarith
  · push_cast
    rw [abs_le]; constructor <;> linarith

theorem pyRound_isRoundedTo (q : ℚ) (n : ℕ) : IsRoundedTo (pyRound q n) q n := by
  constructor
  · exact ⟨roundHalfEven (q * 10 ^ n), rfl⟩
  · have hpos : (0 : ℚ) < 10 ^ n := by positivity
    have h := abs_roundHalfEven_sub (q * 10 ^ n)
    have hq : pyRound q n - q = ((roundHalfEven (q * 10 ^ n) : ℚ) - q * 10 ^ n) / 10 ^ n := by
      field_simp [pyRound]
      ring
    rw [hq, abs_div, abs_of_pos hpos, div_le_iff₀ hpos]
    calc |(roundHalfEven (q * 10 ^ n) : ℚ) - q * 10 ^ n| ≤ 1 / 2 := h
    _ = 1 / (2 * 10 ^ n) * 10 ^ n := by field_simp

/-! ### `backend/rules/rule_engine.py`

Each Python rule is `if <condition>: reasons.append(<reason>); boost += <inc>`.
The embedding keeps the two mutated variables `boost` and `reasons` as two
shadowed `let` chains, one `if` per mutation, with the same condition and in
the same order as the source. -/

/-- Reason string of review rule 1 (`rule_engine.py`, line 22). -/
def ipBurstReviewReason : String := "⚠️ Suspicious IP activity (50+ reviews in 30 days)"

/-- Reason string of review rule 2 (line 27). -/
def newAccountBurstReason : String := "⚠️ New account with unusual activity"

/-- Reason string of review rule 3 (line 32). -/
def shoutingReason : String := "⚠️ Excessive uppercase usage"

/-- Reason string of review rule 4, short branch (line 38). -/
def shortReviewReason : String := "⚠️ Suspiciously short review"

/-- Reason string of review rule 4, long branch (line 41). -/
def longReviewReason : String := "⚠️ Unusually long review"

/-- Reason string of review rule 5 (line 46). -/
def extremeRatingReason : String := "⚠️ Extreme rating with minimal text"

/-- Reason string of review rule 6 (line 51). -/
def ratingDeviationReason : String := "⚠️ Rating inconsistent with user history"

/-- Reason string of review rule 7 (line 56). -/
def deviceReuseReason : String := "⚠️ Device used for 100+ reviews"

/-- `review_rules` (`rule_engine.py`, lines 7–59). -/
def review_rules (features : Features) : ℚ × List String :=
  let boost : ℚ := 0
  let reasons : List String := []
  -- Rule 1: IP burst (too many reviews from same IP)
  let reasons := if getNum features "ip_30d_review_count" 0 > 50 then
    reasons ++ [ipBurstReviewReason] else reasons
  let boost := if getNum features "ip_30d_review_count" 0 > 50 then boost + 0.15 else boost
  -- Rule 2: New account, high activity
  let reasons := if getNum features "account_age_days" 999 < 7 ∧
      getNum features "user_30d_review_count" 0 > 5 then
    reasons ++ [newAccountBurstReason] else reasons
  let boost := if getNum features "account_age_days" 999 < 7 ∧
      getNum features "user_30d_review_count" 0 > 5 then boost + 0.20 else boost
  -- Rule 3: Excessive uppercase (shouting)
  let reasons := if getNum features "upper_ratio" 0 > 0.4 then
    reasons ++ [shoutingReason] else reasons
  let boost := if getNum features "upper_ratio" 0 > 0.4 then boost + 0.05 else boost
  -- Rule 4: Very short or very long review (if / elif)
  let text_len := getNum features "text_len" 50
  let reasons := if text_len < 10 then reasons ++ [shortReviewReason]
    else if text_len > 1000 then reasons ++ [longReviewReason] else reasons
  let boost := if text_len < 10 then boost + 0.10
    else if text_len > 1000 then boost + 0.05 else boost
  -- Rule 5: Extreme rating with low engagement text
  let reasons := if (getNum features "rating" 3 = 1 ∨ getNum features "rating" 3 = 5) ∧
      text_len < 20 then reasons ++ [extremeRatingReason] else reasons
  let boost := if (getNum features "rating" 3 = 1 ∨ getNum features "rating" 3 = 5) ∧
      text_len < 20 then boost + 0.10 else boost
  -- Rule 6: Rating deviation (rating far from user average)
  let reasons := if |getNum features "rating_deviation" 0| > 2.5 then
    reasons ++ [ratingDeviationReason] else reasons
  let boost := if |getNum features "rating_deviation" 0| > 2.5 then boost + 0.08 else boost
  -- Rule 7: Device fingerprint reuse
  let reasons := if getNum features "device_review_count" 0 > 100 then
    reasons ++ [deviceReuseReason] else reasons
  let boost := if getNum features "device_review_count" 0 > 100 then boost + 0.12 else boost
  (boost, reasons)

/-- Reason string of transaction rule 1, high tier (line 77). -/
def highValueReason : String := "⚠️ High-value transaction (>50,000)"

/-- Reason string of transaction rule 1, elevated tier (line 80). -/
def elevatedValueReason : String := "⚠️ Elevated transaction amount (>20,000)"

/-- Reason string of transaction rule 2 (line 85). -/
def velocityReason : String := "⚠️ High transaction velocity (5+ in 1 hour)"

/-- Reason string of transaction rule 3 (line 90). -/
def deviceChurnReason : String := "⚠️ Frequent device changes (5+ in 7 days)"

/-- Reason string of transaction rule 4 (line 95). -/
def geoMismatchReason : String := "⚠️ Transaction from unusual location"

/-- Reason string of transaction rule 5 (line 100). -/
def amountAnomalyReason : String := "⚠️ Amount significantly deviates from user pattern"

/-- Reason string of transaction rule 6 (line 105). -/
def nightTimeReason : String := "⚠️ Large transaction during unusual hours"

/-- Reason string of transaction rule 7 (line 110). -/
def newAccountTxReason : String := "⚠️ New account with large transaction"

/-- Reason string of transaction rule 8 (line 115). -/
def ipBurstTxReason : String := "⚠️ Multiple transactions from same IP"

/-- `tx_rules` (`rule_engine.py`, lines 61–118). -/
def tx_rules (features : Features) : ℚ × List String :=
  let boost : ℚ := 0
  let reasons : List String := []
  -- Rule 1: Very high amount (if / elif tiers)
  let amount := getNum features "amount" 0
  let reasons := if amount > 50000 then reasons ++ [highValueReason]
    else if amount > 20000 then reasons ++ [elevatedValueReason] else reasons
  let boost := if amount > 50000 then boost + 0.25
    else if amount > 20000 then boost + 0.10 else boost
  -- Rule 2: Velocity spike
  let reasons := if getNum features "user_1h_tx" 0 > 5 then
    reasons ++ [velocityReason] else reasons
  let boost := if getNum features "user_1h_tx" 0 > 5 then boost + 0.20 else boost
  -- Rule 3: Frequent device switching
  let reasons := if getNum features "dev_switch_7d" 0 > 5 then
    reasons ++ [deviceChurnReason] else reasons
  let boost := if getNum features "dev_switch_7d" 0 > 5 then boost + 0.15 else boost
  -- Rule 4: Geographic mismatch
  let reasons := if getNum features "country_mismatch" 0 = 1 then
    reasons ++ [geoMismatchReason] else reasons
  let boost := if getNum features "country_mismatch" 0 = 1 then boost + 0.15 else boost
  -- Rule 5: Unusual amount pattern (z-score)
  let reasons := if |getNum features "amount_z" 0| > 3 then
    reasons ++ [amountAnomalyReason] else reasons
  let boost := if |getNum features "amount_z" 0| > 3 then boost + 0.12 else boost
  -- Rule 6: Night-time transaction
  let reasons := if getNum features "is_night_time" 0 = 1 ∧ amount > 10000 then
    reasons ++ [nightTimeReason] else reasons
  let boost := if getNum features "is_night_time" 0 = 1 ∧ amount > 10000 then
    boost + 0.08 else boost
  -- Rule 7: New user, large transaction
  let reasons := if getNum features "account_age_days" 999 < 30 ∧ amount > 15000 then
    reasons ++ [newAccountTxReason] else reasons
  let boost := if getNum features "account_age_days" 999 < 30 ∧ amount > 15000 then
    boost + 0.18 else boost
  -- Rule 8: IP burst
  let reasons := if getNum features "ip_1h_tx" 0 > 10 then
    reasons ++ [ipBurstTxReason] else reasons
  let boost := if getNum features "ip_1h_tx" 0 > 10 then boost + 0.10 else boost
  (boost, reasons)

/-- A declarative business rule: predicate over the feature vector, fixed
score increment, fixed reason string (spec §4.2). -/
structure Rule where
  pred : Features → Prop
  dec : DecidablePred pred
  inc : ℚ
  reason : String

instance (r : Rule) (f : Features) : Decidable (r.pred f) := r.dec f

/-- Uniform evaluation of a declarative rule table: every applicable rule
fires, boosts sum, reasons come out in declaration order. -/
def rulesEval (table : List Rule) (features : Features) : ℚ × List String :=
  (((table.filter (fun r => decide (r.pred features))).map Rule.inc).sum,
   (table.filter (fun r => decide (r.pred features))).map Rule.reason)

/-- One sequential evaluation step: fire `r` on the accumulator when its
predicate holds. -/
def ruleStep (f : Features) (acc : ℚ × List String) (r : Rule) : ℚ × List String :=
  if r.pred f then (acc.1 + r.inc, acc.2 ++ [r.reason]) else acc

/-- Sequential (source-order) evaluation of a rule table. -/
def seqEval (table : List Rule) (f : Features) : ℚ × List String :=
  table.foldl (ruleStep f) (0, [])

theorem rulesEval_cons (r : Rule) (rs : List Rule) (f : Features) :
    rulesEval (r :: rs) f =
      if r.pred f then
        (r.inc + (rulesEval rs f).1, r.reason :: (rulesEval rs f).2)
      else rulesEval rs f := by
  by_cases h : r.pred f <;> simp [rulesEval, List.filter_cons, h]

theorem foldl_ruleStep_eq (f : Features) (table : List Rule) :
    ∀ (b : ℚ) (as : List String),
      table.foldl (ruleStep f) (b, as) =
        (b + (rulesEval table f).1, as ++ (rulesEval table f).2) := by
  induction table with
  | nil => intro b as; simp [rulesEval]
  | cons r rs ih =>
      intro b as
      rw [List.foldl_cons, rulesEval_cons]
      by_cases h : r.pred f
      · simp only [ruleStep, h, if_true]
        rw [ih]
        refine Prod.ext ?_ ?_
        · simp; ring
        · simp
      · simp only [ruleStep, h, if_false]
        rw [ih]

/-- Sequential evaluation of a rule table agrees with the declarative
sum-over-fired-rules evaluation. -/
theorem seqEval_eq_rulesEval (table : List Rule) (f : Features) :
    seqEval table f = rulesEval table f := by
  rw [seqEval, foldl_ruleStep_eq]
  simp

/-- `review_rules` as a declarative rule table, in declaration order. The
`elif` branch of rule 4 carries its effective guard (not short). -/
def reviewRuleTable : List Rule :=
  [⟨fun f => getNum f "ip_30d_review_count" 0 > 50, by infer_instance,
      0.15, ipBurstReviewReason⟩,
   ⟨fun f => getNum f "account_age_days" 999 < 7 ∧
       getNum f "user_30d_review_count" 0 > 5, by infer_instance,
      0.20, newAccountBurstReason⟩,
   ⟨fun f => getNum f "upper_ratio" 0 > 0.4, by infer_instance, 0.05, shoutingReason⟩,
   ⟨fun f => getNum f "text_len" 50 < 10, by infer_instance, 0.10, shortReviewReason⟩,
   ⟨fun f => ¬ getNum f "text_len" 50 < 10 ∧ getNum f "text_len" 50 > 1000,
      by infer_instance, 0.05, longReviewReason⟩,
   ⟨fun f => (getNum f "rating" 3 = 1 ∨ getNum f "rating" 3 = 5) ∧
       getNum f "text_len" 50 < 20, by infer_instance, 0.10, extremeRatingReason⟩,
   ⟨fun f => |getNum f "rating_deviation" 0| > 2.5, by infer_instance,
      0.08, ratingDeviationReason⟩,
   ⟨fun f => getNum f "device_review_count" 0 > 100, by infer_instance,
      0.12, deviceReuseReason⟩]

/-- `tx_rules` as a declarative rule table, in declaration order. The
`elif` tier of rule 1 carries its effective guard (not the higher tier). -/
def txRuleTable : List Rule :=
  [⟨fun f => getNum f "amount" 0 > 50000, by infer_instance, 0.25, highValueReason⟩,
   ⟨fun f => ¬ getNum f "amount" 0 > 50000 ∧ getNum f "amount" 0 > 20000,
      by infer_instance, 0.10, elevatedValueReason⟩,
   ⟨fun f => getNum f "user_1h_tx" 0 > 5, by infer_instance, 0.20, velocityReason⟩,
   ⟨fun f => getNum f "dev_switch_7d" 0 > 5, by infer_instance, 0.15, deviceChurnReason⟩,
   ⟨fun f => getNum f "country_mismatch" 0 = 1, by infer_instance, 0.15, geoMismatchReason⟩,
   ⟨fun f => |getNum f "amount_z" 0| > 3, by infer_instance, 0.12, amountAnomalyReason⟩,
   ⟨fun f => getNum f "is_night_time" 0 = 1 ∧ getNum f "amount" 0 > 10000,
      by infer_instance, 0.08, nightTimeReason⟩,
   ⟨fun f => getNum f "account_age_days" 999 < 30 ∧ getNum f "amount" 0 > 15000,
      by infer_instance, 0.18, newAccountTxReason⟩,
   ⟨fun f => getNum f "ip_1h_tx" 0 > 10, by infer_instance, 0.10, ipBurstTxReason⟩]

theorem ruleStep_eq (f : Features) (acc : ℚ × List String) (r : Rule) :
    ruleStep f acc r =
      (if r.pred f then acc.1 + r.inc else acc.1,
       if r.pred f then acc.2 ++ [r.reason] else acc.2) := by
  by_cases h : r.pred f <;> simp [ruleStep, h]

set_option maxRecDepth 4000 in
theorem review_rules_eq_seq (f : Features) :
    review_rules f = seqEval reviewRuleTable f := by
  by_cases h1 : getNum f "text_len" 50 < 10 <;>
    by_cases h2 : getNum f "text_len" 50 > 1000 <;>
      simp only [review_rules, seqEval, reviewRuleTable, List.foldl_cons, List.foldl_nil,
        ruleStep_eq, h1, h2, if_true, if_false, not_true_eq_false, not_false_eq_true,
        false_and, true_and, and_false, and_true, ite_true, ite_false,
        eq_self_iff_true, not_lt, not_false_iff]

set_option maxRecDepth 4000 in
theorem tx_rules_eq_seq (f : Features) :
    tx_rules f = seqEval txRuleTable f := by
  by_cases h1 : getNum f "amount" 0 > 50000 <;>
    by_cases h2 : getNum f "amount" 0 > 20000 <;>
      simp only [tx_rules, seqEval, txRuleTable, List.foldl_cons, List.foldl_nil,
        ruleStep_eq, h1, h2, if_true, if_false, not_true_eq_false, not_false_eq_true,
        false_and, true_and, and_false, and_true, ite_true, ite_false,
        eq_self_iff_true, not_lt, not_false_iff]

/-- `review_rules` agrees with the declarative evaluation of its table. -/
theorem review_rules_eq_table (f : Features) :
    review_rules f = rulesEval reviewRuleTable f := by
  rw [review_rules_eq_seq, seqEval_eq_rulesEval]

/-- `tx_rules` agrees with the declarative evaluation of its table. -/
theorem tx_rules_eq_table (f : Features) :
    tx_rules f = rulesEval txRuleTable f := by
  rw [tx_rules_eq_seq, seqEval_eq_rulesEval]

/-! ### Claims about score fusion and the rule evaluators -/

/-- C1: `assemble_decision` computes `final_score = clamp(model_score +
rule_boost, 0, 1)`, decides `final_score >= threshold`, and derives the
confidence band from the distance to the threshold (`> 0.2` high,
`> 0.1` medium, else low); and for `model_score ∈ [0,1]`, `rule_boost ≥ 0`
the final score lies in `[0,1]` (indeed it does for all inputs). -/
theorem claim_C1 (ms th rb : ℚ) (rs : List String) :
    finalScore ms rb = min 1 (max 0 (ms + rb)) ∧
    (assemble_decision ms th rb rs).decision = decide (finalScore ms rb ≥ th) ∧
    (assemble_decision ms th rb rs).confidence =
      (if |finalScore ms rb - th| > 0.2 then "high"
       else if |finalScore ms rb - th| > 0.1 then "medium" else "low") ∧
    (0 ≤ ms ∧ ms ≤ 1 ∧ 0 ≤ rb → 0 ≤ finalScore ms rb ∧ finalScore ms rb ≤ 1) := by
  refine ⟨rfl, rfl, rfl, fun _ => ⟨?_, ?_⟩⟩
  · exact le_min (by norm_num) (le_max_left 0 _)
  · exact min_le_left 1 _

theorem claim_C1_witness :
    (0 : ℚ) ≤ 0.4 ∧ (0.4 : ℚ) ≤ 1 ∧ (0 : ℚ) ≤ 0.25 ∧
    (0 ≤ finalScore 0.4 0.25 ∧ finalScore 0.4 0.25 ≤ 1) :=
  ⟨by norm_num, by norm_num, by norm_num,
   (claim_C1 0.4 0.65 0.25 []).2.2.2 (by norm_num)⟩

/-- C2 fails on the code: `assemble_decision` contains no input validation
and no `InvalidScoreInput` (the identifier appears nowhere in the
repository). On the invalid input `model_score = 2` (outside `[0,1]`) it
returns a normal decision record whose final score has been silently
clamped to 1, and a negative threshold is likewise accepted unchanged. -/
theorem claim_C2_counterexample :
    (assemble_decision 2 0.5 0 []).score_final = 1 ∧
    (assemble_decision 2 0.5 0 []).decision = true ∧
    (assemble_decision 0.5 (-1) 0 []).threshold = -1 ∧
    (assemble_decision 0.5 (-1) 0 []).decision = true := by
  refine ⟨?_, ?_, ?_, ?_⟩ <;> with_unfolding_all decide

/-- C2 amended: `assemble_decision` performs no input validation and never
fails: every input, including a model score outside `[0,1]` and a negative
threshold, produces a decision record; out-of-range scores are silently
clamped into `[0,1]` by the final-score clamp and the threshold is
recorded as given. -/
theorem claim_C2_amended (ms th rb : ℚ) (rs : List String) :
    0 ≤ finalScore ms rb ∧ finalScore ms rb ≤ 1 ∧
    (assemble_decision ms th rb rs).threshold = th ∧
    (assemble_decision ms th rb rs).score_model = pyRound ms 4 ∧
    (assemble_decision ms th rb rs).reasons = rs := by
  exact ⟨le_min (by norm_num) (le_max_left 0 _), min_le_left 1 _, rfl, rfl, rfl⟩

/-- C4: both rule evaluators equal the declarative evaluation of their
rule tables — the boost is the sum of the increments of exactly the rules
whose predicates hold (no cap, no max, no short-circuit) and the reason
list is the reasons of the fired rules, a subsequence of the full
declaration-order reason list. -/
theorem claim_C4 (f : Features) :
    review_rules f = rulesEval reviewRuleTable f ∧
    tx_rules f = rulesEval txRuleTable f ∧
    (review_rules f).2.Sublist (reviewRuleTable.map Rule.reason) ∧
    (tx_rules f).2.Sublist (txRuleTable.map Rule.reason) := by
  refine ⟨review_rules_eq_table f, tx_rules_eq_table f, ?_, ?_⟩
  · rw [review_rules_eq_table]
    exact List.Sublist.map _ (List.filter_sublist _)
  · rw [tx_rules_eq_table]
    exact List.Sublist.map _ (List.filter_sublist _)

theorem txRulesEval_split (f : Features) :
    rulesEval txRuleTable f =
      if getNum f "amount" 0 > 50000 then
        (0.25 + (rulesEval (txRuleTable.drop 2) f).1,
         highValueReason :: (rulesEval (txRuleTable.drop 2) f).2)
      else if getNum f "amount" 0 > 20000 then
        (0.10 + (rulesEval (txRuleTable.drop 2) f).1,
         elevatedValueReason :: (rulesEval (txRuleTable.drop 2) f).2)
      else rulesEval (txRuleTable.drop 2) f := by
  have h : txRuleTable =
      ⟨fun f => getNum f "amount" 0 > 50000, by infer_instance, 0.25, highValueReason⟩ ::
      ⟨fun f => ¬ getNum f "amount" 0 > 50000 ∧ getNum f "amount" 0 > 20000,
        by infer_instance, 0.10, elevatedValueReason⟩ :: txRuleTable.drop 2 := rfl
  rw [h, rulesEval_cons, rulesEval_cons]
  by_cases h1 : getNum f "amount" 0 > 50000 <;>
    by_cases h2 : getNum f "amount" 0 > 20000 <;>
      simp [h1, h2]

theorem tierReasons_notMem_rest (f : Features) :
    highValueReason ∉ (rulesEval (txRuleTable.drop 2) f).2 ∧
    elevatedValueReason ∉ (rulesEval (txRuleTable.drop 2) f).2 := by
  have hs : ((rulesEval (txRuleTable.drop 2) f).2).Sublist
      ((txRuleTable.drop 2).map Rule.reason) :=
    List.Sublist.map _ (List.filter_sublist _)
  constructor <;> intro hmem <;> have hin := hs.subset hmem <;> revert hin <;> decide

/-- C5: the high-value transaction tiers of `tx_rules` are mutually
exclusive: an amount above 50000 contributes exactly `+0.25` (with the
high-value reason prepended) and never the `+0.10` tier; an amount in
`(20000, 50000]` contributes exactly `+0.10`; on no feature vector do both
tier reasons appear. -/
theorem claim_C5 (f : Features) :
    (getNum f "amount" 0 > 50000 →
      tx_rules f = (0.25 + (rulesEval (txRuleTable.drop 2) f).1,
        highValueReason :: (rulesEval (txRuleTable.drop 2) f).2)) ∧
    (getNum f "amount" 0 > 20000 ∧ ¬ getNum f "amount" 0 > 50000 →
      tx_rules f = (0.10 + (rulesEval (txRuleTable.drop 2) f).1,
        elevatedValueReason :: (rulesEval (txRuleTable.drop 2) f).2)) ∧
    ¬ (highValueReason ∈ (tx_rules f).2 ∧ elevatedValueReason ∈ (tx_rules f).2) := by
  rw [tx_rules_eq_table, txRulesEval_split]
  refine ⟨fun h1 => by simp [h1], fun h => by simp [h.1, h.2], ?_⟩
  by_cases h1 : getNum f "amount" 0 > 50000 <;>
    by_cases h2 : getNum f "amount" 0 > 20000 <;>
      simp [h1, h2] <;>
      first
        | exact ⟨by decide, (tierReasons_notMem_rest f).2⟩
        | exact ⟨by decide, (tierReasons_notMem_rest f).1⟩
        | exact fun hmem => absurd hmem (tierReasons_notMem_rest f).1

theorem claim_C5_witness :
    getNum [("amount", FeatVal.num 60000)] "amount" 0 > 50000 ∧
    tx_rules [("amount", FeatVal.num 60000)] =
      (0.25 + (rulesEval (txRuleTable.drop 2) [("amount", FeatVal.num 60000)]).1,
       highValueReason :: (rulesEval (txRuleTable.drop 2) [("amount", FeatVal.num 60000)]).2) :=
  ⟨by with_unfolding_all decide,
   (claim_C5 [("amount", FeatVal.num 60000)]).1 (by with_unfolding_all decide)⟩

/-- C7: `assemble_decision` reports `model_contribution = model_score /
final_score * 100` and `rules_contribution = rule_boost / final_score *
100`, with the conventions 100 and 0 when the final score is 0 (the guard
`final_score > 0` in the source is equivalent since the final score is
never negative), and every reported score is rounded to 4 decimal places
and both contribution percentages to 1 decimal place. -/
theorem claim_C7 (ms th rb : ℚ) (rs : List String) :
    (assemble_decision ms th rb rs).model_contribution =
      pyRound (if finalScore ms rb > 0 then ms / finalScore ms rb * 100 else 100) 1 ∧
    (assemble_decision ms th rb rs).rules_contribution =
      pyRound (if finalScore ms rb > 0 then rb / finalScore ms rb * 100 else 0) 1 ∧
    (finalScore ms rb = 0 →
      (assemble_decision ms th rb rs).model_contribution = 100 ∧
      (assemble_decision ms th rb rs).rules_contribution = 0) ∧
    ((assemble_decision ms th rb rs).score_model = pyRound ms 4 ∧
     (assemble_decision ms th rb rs).score_rules = pyRound rb 4 ∧
     (assemble_decision ms th rb rs).score_final = pyRound (finalScore ms rb) 4) ∧
    (IsRoundedTo (assemble_decision ms th rb rs).score_model ms 4 ∧
     IsRoundedTo (assemble_decision ms th rb rs).score_rules rb 4 ∧
     IsRoundedTo (assemble_decision ms th rb rs).score_final (finalScore ms rb) 4 ∧
     IsRoundedTo (assemble_decision ms th rb rs).model_contribution
       (if finalScore ms rb > 0 then ms / finalScore ms rb * 100 else 100) 1 ∧
     IsRoundedTo (assemble_decision ms th rb rs).rules_contribution
       (if finalScore ms rb > 0 then rb / finalScore ms rb * 100 else 0) 1) := by
  refine ⟨rfl, rfl, fun h0 => ⟨?_, ?_⟩, ⟨rfl, rfl, rfl⟩,
    pyRound_isRoundedTo ms 4, pyRound_isRoundedTo rb 4,
    pyRound_isRoundedTo (finalScore ms rb) 4, pyRound_isRoundedTo _ 1,
    pyRound_isRoundedTo _ 1⟩
  · show pyRound (if finalScore ms rb > 0 then ms / finalScore ms rb * 100 else 100) 1 = 100
    rw [h0]
    norm_num
    with_unfolding_all decide
  · show pyRound (if finalScore ms rb > 0 then rb / finalScore ms rb * 100 else 0) 1 = 0
    rw [h0]
    norm_num
    with_unfolding_all decide

theorem claim_C7_witness :
    finalScore 0 0 = 0 ∧
    ((assemble_decision 0 0.5 0 []).model_contribution = 100 ∧
     (assemble_decision 0 0.5 0 []).rules_contribution = 0) :=
  ⟨by with_unfolding_all decide,
   (claim_C7 0 0.5 0 []).2.2.1 (by with_unfolding_all decide)⟩

/-! ### `backend/pipelines/review_pipeline.py` — text features (lines 27–61) -/

/-- Python `text.split()`: split on whitespace runs, dropping empty parts. -/
def pyWords (text : String) : List String :=
  (text.split fun c => c.isWhitespace).filter (fun w => w ≠ "")

/-- `sum(1 for c in text if p(c))`. -/
def countP (text : String) (p : Char → Bool) : ℕ :=
  (text.data.filter p).length

/-- `c in '.,!?;:'` (line 39). -/
def isPunctChar (c : Char) : Bool :=
  c == '.' || c == ',' || c == '!' || c == '?' || c == ';' || c == ':'

/-- Substring test used to model `re.search` of fixed alternatives. -/
def containsSub (text pat : String) : Bool :=
  (List.range (text.data.length + 1)).any
    (fun i => (text.data.drop i).take pat.data.length == pat.data)

/-- `re.search(r'http[s]?://|www\.', text, re.I)` (line 59): the pattern has
no metacharacters beyond the two fixed alternatives, so it is a
case-insensitive substring test. -/
def hasUrl (text : String) : ℕ :=
  if containsSub text.toLower "http://" || containsSub text.toLower "https://" ||
      containsSub text.toLower "www." then 1 else 0

def emailLocalChar (c : Char) : Bool :=
  c.isAlphanum || c == '.' || c == '_' || c == '%' || c == '+' || c == '-'

def emailDomainChar (c : Char) : Bool :=
  c.isAlphanum || c == '.' || c == '-'

/-- Modelled from the email regex on line 60
(`\b[A-Za-z0-9._%+-]+@[A-Za-z0-9.-]+\.[A-Z|a-z]{2,}\b`): a token of shape
`local@domain.tld` with the regex's character classes (including the
literal `|` the source's class `[A-Z|a-z]` admits). -/
def isEmailToken (w : String) : Bool :=
  match w.splitOn "@" with
  | [l, d] =>
    let ds := d.splitOn "."
    decide (l ≠ "") && l.data.all emailLocalChar &&
    decide (ds.length ≥ 2) &&
    ds.all (fun p => decide (p ≠ "") && p.data.all emailDomainChar) &&
    (match ds.getLast? with
     | some tld => decide (tld.length ≥ 2) && tld.data.all (fun c => c.isAlpha || c == '|')
     | none => false)
  | _ => false

/-- `1 if re.search(<email pattern>, text) else 0` (line 60), via
`isEmailToken` on whitespace tokens. -/
def hasEmail (text : String) : ℕ :=
  if (pyWords text).any isEmailToken then 1 else 0

/-- Counts maximal runs of one character of length ≥ 3: the number of
matches of `(.)\1{2,}` found by `re.findall` (line 61). -/
def countLongRunsAux : Option Char → ℕ → List Char → ℕ
  | _, runLen, [] => if runLen ≥ 3 then 1 else 0
  | some c, runLen, d :: rest =>
      if d = c then countLongRunsAux (some c) (runLen + 1) rest
      else (if runLen ≥ 3 then 1 else 0) + countLongRunsAux (some d) 1 rest
  | none, _, d :: rest => countLongRunsAux (some d) 1 rest

/-- `len(re.findall(r'(.)\1{2,}', text))` (line 61). -/
def repeatedChars (text : String) : ℕ :=
  countLongRunsAux none 0 text.data

/-- The TEXT FEATURES block (`review_pipeline.py`, lines 31–61), in
insertion order. -/
def textFeats (text : String) : Features :=
  [("text_len", FeatVal.num text.length),
   ("word_count", FeatVal.num (pyWords text).length)]
  ++ (if text.length > 0 then
      [("upper_ratio", FeatVal.num ((countP text Char.isUpper : ℚ) / text.length)),
       ("digit_ratio", FeatVal.num ((countP text Char.isDigit : ℚ) / text.length)),
       ("punct_ratio", FeatVal.num ((countP text isPunctChar : ℚ) / text.length)),
       ("exclaim_ratio", FeatVal.num ((countP text (fun c => c == '!') : ℚ) / text.length)),
       ("question_ratio", FeatVal.num ((countP text (fun c => c == '?') : ℚ) / text.length))]
    else
      [("upper_ratio", FeatVal.num 0), ("digit_ratio", FeatVal.num 0),
       ("punct_ratio", FeatVal.num 0), ("exclaim_ratio", FeatVal.num 0),
       ("question_ratio", FeatVal.num 0)])
  ++ (if pyWords text ≠ [] then
      [("avg_word_len",
        FeatVal.num ((((pyWords text).map String.length).sum : ℚ) / (pyWords text).length)),
       ("unique_word_ratio",
        FeatVal.num (((pyWords text).dedup.length : ℚ) / (pyWords text).length))]
    else
      [("avg_word_len", FeatVal.num 0), ("unique_word_ratio", FeatVal.num 0)])
  ++ [("has_url", FeatVal.num (hasUrl text)),
      ("has_email", FeatVal.num (hasEmail text)),
      ("repeated_chars", FeatVal.num (repeatedChars text))]

/-! ### `backend/pipelines/review_pipeline.py` — payload, store accessor,
feature aggregation (lines 14–162) -/

/-- A row of the `users` table as relevant here: `created_at` may be NULL
(seconds since epoch otherwise). -/
structure UserRow where
  created_at : Option ℤ
  deriving DecidableEq, Repr

/-- The raw review payload. Optional fields model Python `payload.get`
returning a missing/falsy value as `none`. -/
structure ReviewPayload where
  review_text : Option String
  rating : Option ℚ
  user_id : Option String
  review_id : Option String
  ip_address : Option String
  device_fingerprint : Option String
  product_id : Option String
  deriving Repr

/-- The historical store accessor for reviews: one query function per
database query issued by `engineer_review_features`, in source order.
Each returns `Except HErr` because a failing store access raises. -/
structure ReviewDB where
  /-- avg rating of the user's other reviews, `None` when no rows (lines 69–72). -/
  avg_rating_excl : String → Option String → Except HErr (Option ℚ)
  /-- `db.query(User).filter(User.id == user_id).first()` (line 89). -/
  user_by_id : String → Except HErr (Option UserRow)
  /-- user review count, last 30 days (lines 99–102). -/
  user_reviews_30d : String → Except HErr ℕ
  /-- user review count, last 7 days (lines 104–107). -/
  user_reviews_7d : String → Except HErr ℕ
  /-- user review count, last 1 hour (lines 109–112). -/
  user_reviews_1h : String → Except HErr ℕ
  /-- reviews from this IP, last 30 days (lines 123–126). -/
  ip_reviews_30d : String → Except HErr ℕ
  /-- distinct users on this IP (lines 128–130). -/
  ip_unique_users : String → Except HErr ℕ
  /-- reviews with this device fingerprint (lines 136–138). -/
  device_reviews : String → Except HErr ℕ
  /-- distinct users on this device (lines 140–142). -/
  device_unique_users : String → Except HErr ℕ
  /-- reviews of this product (lines 150–152). -/
  product_reviews : String → Except HErr ℕ
  /-- avg rating of this product, `None` when no rows (lines 154–156). -/
  product_avg_rating : String → Except HErr (Option ℚ)

/-- RATING FEATURES query (lines 66–72): skipped (`none`) without a
`user_id`; the falsy-`user_avg` collapse happens in `ratingFeats`. -/
def fetchUserAvg (payload : ReviewPayload) (db : ReviewDB) : Except HErr (Option ℚ) :=
  match payload.user_id with
  | some uid => db.avg_rating_excl uid payload.review_id
  | none => pure none

/-- RATING FEATURES block (lines 63–82): `rating`, `rating_deviation`,
`user_avg_rating`. Python `if user_avg:` is falsy for both `None` and
`0.0`. -/
def ratingFeats (rating : ℚ) (user_avg : Option ℚ) : Features :=
  [("rating", FeatVal.num rating)] ++
  (match user_avg with
   | some v =>
      if v ≠ 0 then
        [("rating_deviation", FeatVal.num |rating - v|),
         ("user_avg_rating", FeatVal.num v)]
      else
        [("rating_deviation", FeatVal.num 0), ("user_avg_rating", FeatVal.num rating)]
   | none =>
      [("rating_deviation", FeatVal.num 0), ("user_avg_rating", FeatVal.num rating)])

/-- TEMPORAL FEATURES block (lines 84–95): account age in days,
`(now - created_at).days` = floor division of the second difference. -/
def fetchAccountAge (now : ℤ) (payload : ReviewPayload) (db : ReviewDB) :
    Except HErr ℚ :=
  match payload.user_id with
  | some uid => do
      let u ← db.user_by_id uid
      pure (match u with
        | some ur =>
          match ur.created_at with
          | some ca => ((Int.fdiv (now - ca) 86400 : ℤ) : ℚ)
          | none => 0
        | none => 0)
  | none => pure 0

/-- BEHAVIORAL FEATURES queries (lines 97–116). -/
def fetchBehavior (payload : ReviewPayload) (db : ReviewDB) :
    Except HErr (ℕ × ℕ × ℕ) :=
  match payload.user_id with
  | some uid => do
      let c30 ← db.user_reviews_30d uid
      let c7 ← db.user_reviews_7d uid
      let c1 ← db.user_reviews_1h uid
      pure (c30, c7, c1)
  | none => pure (0, 0, 0)

/-- IP FEATURES queries (lines 122–133). -/
def fetchIpFeats (payload : ReviewPayload) (db : ReviewDB) :
    Except HErr (ℕ × ℕ) :=
  match payload.ip_address with
  | some ip => do
      let c ← db.ip_reviews_30d ip
      let u ← db.ip_unique_users ip
      pure (c, u)
  | none => pure (0, 0)

/-- DEVICE FEATURES queries (lines 135–145). -/
def fetchDeviceFeats (payload : ReviewPayload) (db : ReviewDB) :
    Except HErr (ℕ × ℕ) :=
  match payload.device_fingerprint with
  | some dev => do
      let c ← db.device_reviews dev
      let u ← db.device_unique_users dev
      pure (c, u)
  | none => pure (0, 0)

/-- PRODUCT FEATURES queries (lines 147–160): count, and average rating
with `float(product_avg) if product_avg else 3.0` (falsy for `None` and
`0.0`). -/
def fetchProductFeats (payload : ReviewPayload) (db : ReviewDB) :
    Except HErr (ℕ × ℚ) :=
  match payload.product_id with
  | some pid => do
      let c ← db.product_reviews pid
      let pav ← db.product_avg_rating pid
      pure (c, match pav with
        | some v => if v ≠ 0 then v else 3
        | none => 3)
  | none => pure (0, 3)

/-- `engineer_review_features` (`review_pipeline.py`, lines 14–162): the
queries run in source order; the returned dictionary lists every key in
source insertion order. Any failing store access propagates. -/
def engineer_review_features (now : ℤ) (payload : ReviewPayload) (db : ReviewDB) :
    Except HErr Features := do
  let text := payload.review_text.getD ""
  let rating := payload.rating.getD 3
  let user_avg ← fetchUserAvg payload db
  let age ← fetchAccountAge now payload db
  let beh ← fetchBehavior payload db
  let ipf ← fetchIpFeats payload db
  let devf ← fetchDeviceFeats payload db
  let prodf ← fetchProductFeats payload db
  pure ([("review_text", FeatVal.str text)] ++ textFeats text ++
    ratingFeats rating user_avg ++
    [("account_age_days", FeatVal.num age)] ++
    [("user_30d_review_count", FeatVal.num beh.1),
     ("user_7d_review_count", FeatVal.num beh.2.1),
     ("user_1h_review_count", FeatVal.num beh.2.2)] ++
    [("ip_30d_review_count", FeatVal.num ipf.1),
     ("ip_unique_users", FeatVal.num ipf.2)] ++
    [("device_review_count", FeatVal.num devf.1),
     ("device_unique_users", FeatVal.num devf.2)] ++
    [("product_review_count", FeatVal.num prodf.1),
     ("product_avg_rating", FeatVal.num prodf.2)])

/-! ### `backend/pipelines/tx_pipeline.py` (lines 12–188) -/

/-- The raw transaction payload. -/
structure TxPayload where
  amount : Option ℚ
  currency : Option String
  channel : Option String
  user_id : Option String
  ip_address : Option String
  device_fingerprint : Option String
  deriving Repr

/-- The historical store accessor for transactions, one query function per
query issued by `engineer_tx_features`, in source order. -/
structure TxDB where
  /-- `db.query(User)...first()` (line 42). -/
  user_by_id : String → Except HErr (Option UserRow)
  /-- amounts of the user's past transactions (lines 49–52). -/
  past_amounts : String → Except HErr (List ℚ)
  /-- user transactions, last 1 hour (lines 77–80). -/
  user_tx_1h : String → Except HErr ℕ
  /-- user transactions, last 24 hours (lines 83–86). -/
  user_tx_24h : String → Except HErr ℕ
  /-- user transactions, last 7 days (lines 89–92). -/
  user_tx_7d : String → Except HErr ℕ
  /-- amount sum, last 24 hours; `None` when no rows (lines 95–98). -/
  sum_amount_24h : String → Except HErr (Option ℚ)
  /-- transactions from this IP, last 1 hour (lines 120–123). -/
  ip_tx_1h : String → Except HErr ℕ
  /-- distinct users from this IP (lines 126–128). -/
  ip_unique_users : String → Except HErr ℕ
  /-- distinct devices of the user, last 7 days (lines 135–138). -/
  distinct_devices_7d : String → Except HErr ℕ
  /-- amounts of the user's 10 most recent transactions (lines 146–149). -/
  recent_amounts_10 : String → Except HErr (List ℚ)
  /-- per-channel transaction counts of the user (lines 167–171). -/
  channel_counts : String → Except HErr (List (String × ℕ))

/-- Account age in days from an optional user row (`(now - created_at).days`,
0 when user or `created_at` missing). -/
def accountAgeDays (now : ℤ) (u : Option UserRow) : ℚ :=
  match u with
  | some ur =>
    match ur.created_at with
    | some ca => ((Int.fdiv (now - ca) 86400 : ℤ) : ℚ)
    | none => 0
  | none => 0

/-- Sample variance with one delta degree of freedom: the square of
`pd.Series(...).std()`; the square root itself is irrational in general
and is abstracted as the `sqrtQ` parameter of the transaction pipeline. -/
def sampleVar (l : List ℚ) : ℚ :=
  ((l.map (fun x => (x - l.sum / l.length) ^ 2)).sum) / ((l.length : ℚ) - 1)

/-- Historical transaction stats block (lines 54–73). -/
def txUserStats (sqrtQ : ℚ → ℚ) (amount : ℚ) (amounts : List ℚ) : Features :=
  match amounts with
  | [] =>
    [("user_total_txs", FeatVal.num 0), ("user_avg_amount", FeatVal.num 0),
     ("user_max_amount", FeatVal.num 0), ("user_min_amount", FeatVal.num 0),
     ("user_std_amount", FeatVal.num 0), ("amount_z", FeatVal.num 0)]
  | a :: rest =>
    let n : ℚ := (a :: rest).length
    let avg := (a :: rest).sum / n
    let std := if (a :: rest).length > 1 then sqrtQ (sampleVar (a :: rest)) else 0
    [("user_total_txs", FeatVal.num ((a :: rest).length : ℚ)),
     ("user_avg_amount", FeatVal.num avg),
     ("user_max_amount", FeatVal.num (rest.foldl max a)),
     ("user_min_amount", FeatVal.num (rest.foldl min a)),
     ("user_std_amount", FeatVal.num std),
     ("amount_z", FeatVal.num (if std > 0 then (amount - avg) / std else 0))]

/-- USER HISTORY and VELOCITY blocks (lines 40–112); also yields
`user_total_txs` for the rolling block. `scalar() or 0` maps a NULL sum
to 0. -/
def fetchTxUser (sqrtQ : ℚ → ℚ) (now : ℤ) (amount : ℚ) (payload : TxPayload)
    (db : TxDB) : Except HErr (Features × ℕ) :=
  match payload.user_id with
  | some uid => do
      let u ← db.user_by_id uid
      let amounts ← db.past_amounts uid
      let c1 ← db.user_tx_1h uid
      let c24 ← db.user_tx_24h uid
      let c7 ← db.user_tx_7d uid
      let s24 ← db.sum_amount_24h uid
      pure ([("account_age_days", FeatVal.num (accountAgeDays now u))] ++
        txUserStats sqrtQ amount amounts ++
        [("user_1h_tx", FeatVal.num c1), ("user_24h_tx", FeatVal.num c24),
         ("user_7d_tx", FeatVal.num c7),
         ("user_24h_amount", FeatVal.num (s24.getD 0))], amounts.length)
  | none =>
      pure ([("account_age_days", FeatVal.num 0), ("user_total_txs", FeatVal.num 0),
        ("user_avg_amount", FeatVal.num 0), ("user_max_amount", FeatVal.num 0),
        ("user_min_amount", FeatVal.num 0), ("user_std_amount", FeatVal.num 0),
        ("amount_z", FeatVal.num 0), ("user_1h_tx", FeatVal.num 0),
        ("user_24h_tx", FeatVal.num 0), ("user_7d_tx", FeatVal.num 0),
        ("user_24h_amount", FeatVal.num 0)], 0)

/-- IP FEATURES queries (lines 114–131). -/
def fetchTxIp (payload : TxPayload) (db : TxDB) : Except HErr (ℕ × ℕ) :=
  match payload.ip_address with
  | some ip => do
      let c ← db.ip_tx_1h ip
      let u ← db.ip_unique_users ip
      pure (c, u)
  | none => pure (0, 0)

/-- Device-switch count (lines 133–141): requires both device and user;
`scalar() or 1` maps 0 (falsy) to 1; then subtract the current device. -/
def fetchTxDevice (payload : TxPayload) (db : TxDB) : Except HErr ℕ :=
  match payload.device_fingerprint, payload.user_id with
  | some _, some uid => do
      let ud ← db.distinct_devices_7d uid
      pure ((if ud = 0 then 1 else ud) - 1)
  | _, _ => pure 0

/-- ROLLING STATISTICS block (lines 143–161). -/
def fetchRolling (sqrtQ : ℚ → ℚ) (amount : ℚ) (totalTxs : ℕ) (payload : TxPayload)
    (db : TxDB) : Except HErr (ℚ × ℚ) :=
  match payload.user_id with
  | some uid =>
      if totalTxs > 3 then do
        let recent ← db.recent_amounts_10 uid
        pure (match recent with
          | [] => (0, 0)
          | a :: rest =>
            (amount - (a :: rest).sum / ((a :: rest).length : ℚ),
             if (a :: rest).length > 1 then sqrtQ (sampleVar (a :: rest)) else 0))
      else pure (0, 0)
  | none => pure (0, 0)

/-- Python `max(channel_counts, key=lambda x: x[1])`: first maximal element. -/
def maxByCount (rest : List (String × ℕ)) (best : String × ℕ) : String × ℕ :=
  match rest with
  | [] => best
  | x :: xs => maxByCount xs (if x.2 > best.2 then x else best)

/-- CHANNEL FEATURES block (lines 163–182). -/
def fetchChannel (channel : String) (payload : TxPayload) (db : TxDB) :
    Except HErr (ℕ × ℕ) :=
  match payload.user_id with
  | some uid => do
      let counts ← db.channel_counts uid
      pure (match counts with
        | [] => (0, 0)
        | c :: rest =>
          ((if channel ≠ (maxByCount rest c).1 then 1 else 0),
           (counts.lookup channel).getD 0))
  | none => pure (0, 0)

/-- `engineer_tx_features` (`tx_pipeline.py`, lines 12–188). `sqrtQ`
abstracts the numeric square root inside `pd.Series(...).std()` (its exact
value is irrational in general); every theorem below holds for every
`sqrtQ`. The GEO FEATURES placeholder sets `country_mismatch = 0`
unconditionally (line 186). -/
def engineer_tx_features (sqrtQ : ℚ → ℚ) (now : ℤ) (payload : TxPayload)
    (db : TxDB) : Except HErr Features := do
  let amount := payload.amount.getD 0
  let currency := payload.currency.getD "INR"
  let channel := payload.channel.getD "web"
  let hour : ℤ := (Int.fdiv now 3600) % 24
  let userFeats ← fetchTxUser sqrtQ now amount payload db
  let ipf ← fetchTxIp payload db
  let devSwitch ← fetchTxDevice payload db
  let rolling ← fetchRolling sqrtQ amount userFeats.2 payload db
  let chf ← fetchChannel channel payload db
  pure ([("amount", FeatVal.num amount), ("currency", FeatVal.str currency),
    ("channel", FeatVal.str channel),
    ("hour_of_day", FeatVal.num (hour : ℚ)),
    ("is_night_time", FeatVal.num (if (hour ≥ 0 ∧ hour < 6) ∨ hour ≥ 22 then 1 else 0)),
    ("is_weekend", FeatVal.num (if (Int.fdiv now 86400 + 3) % 7 ≥ 5 then 1 else 0))] ++
    userFeats.1 ++
    [("ip_1h_tx", FeatVal.num ipf.1), ("ip_unique_users", FeatVal.num ipf.2),
     ("dev_switch_7d", FeatVal.num devSwitch),
     ("rolling_mean_diff", FeatVal.num rolling.1),
     ("rolling_std", FeatVal.num rolling.2),
     ("channel_mismatch", FeatVal.num chf.1), ("channel_freq", FeatVal.num chf.2),
     ("country_mismatch", FeatVal.num 0)])

/-! ### Association-list and `Except` machinery -/

theorem except_bind_ok {α β : Type} {m : Except HErr α} {f : α → Except HErr β}
    {b : β} (h : m >>= f = Except.ok b) : ∃ a, m = Except.ok a ∧ f a = Except.ok b := by
  cases m with
  | error e => simp [Bind.bind, Except.bind] at h
  | ok a => exact ⟨a, rfl, by simpa [Bind.bind, Except.bind] using h⟩

theorem except_pure_ok {α : Type} {x b : α}
    (h : (pure x : Except HErr α) = Except.ok b) : x = b := by
  simpa [pure, Except.pure] using h

theorem lookup_append_some {k : String} {xs ys : Features} {v : FeatVal}
    (h : xs.lookup k = some v) : (xs ++ ys).lookup k = some v := by
  induction xs with
  | nil => simp [List.lookup] at h
  | cons kv rest ih =>
      rcases kv with ⟨a, w⟩
      by_cases hk : k = a
      · simpa [List.lookup, hk] using by simpa [List.lookup, hk] using h
      · have hb : (k == a) = false := beq_false_of_ne hk
        simp only [List.cons_append, List.lookup, hb] at h ⊢
        exact ih h

theorem lookup_append_none {k : String} {xs ys : Features}
    (h : xs.lookup k = none) : (xs ++ ys).lookup k = ys.lookup k := by
  induction xs with
  | nil => simp
  | cons kv rest ih =>
      rcases kv with ⟨a, w⟩
      by_cases hk : k = a
      · simp [List.lookup, hk] at h
      · have hb : (k == a) = false := beq_false_of_ne hk
        simp only [List.cons_append, List.lookup, hb] at h ⊢
        exact ih h

theorem lookup_eq_none_of_not_mem_keys {k : String} {xs : Features}
    (h : k ∉ xs.map Prod.fst) : xs.lookup k = none := by
  induction xs with
  | nil => rfl
  | cons kv rest ih =>
      rcases kv with ⟨a, w⟩
      simp only [List.map_cons, List.mem_cons, not_or] at h
      have hb : (k == a) = false := beq_false_of_ne h.1
      simp only [List.lookup, hb]
      exact ih h.2

/-- Whether a feature value is numeric. -/
def isNum : FeatVal → Bool
  | FeatVal.num _ => true
  | FeatVal.str _ => false

/-- All values in a feature list are numeric. -/
def allNum (fs : Features) : Bool := fs.all (fun kv => isNum kv.2)

theorem exists_num_of_isNum {v : FeatVal} (h : isNum v = true) :
    ∃ q : ℚ, v = FeatVal.num q := by
  cases v with
  | num q => exact ⟨q, rfl⟩
  | str s => simp [isNum] at h

theorem lookup_num_of {fs : Features} {k : String}
    (hk : k ∈ fs.map Prod.fst)
    (hnum : ∀ kv ∈ fs, kv.1 = k → isNum kv.2 = true) :
    ∃ q : ℚ, fs.lookup k = some (FeatVal.num q) := by
  induction fs with
  | nil => simp at hk
  | cons kv rest ih =>
      rcases kv with ⟨a, w⟩
      by_cases hka : k = a
      · obtain ⟨q, hq⟩ := exists_num_of_isNum
          (hnum (a, w) (List.mem_cons_self _ _) hka.symm)
        refine ⟨q, ?_⟩
        have hb : (k == a) = true := by simp [hka]
        simp only [List.lookup, hb]
        exact congrArg some hq
      · have hb : (k == a) = false := beq_false_of_ne hka
        simp only [List.lookup, hb]
        refine ih ?_ ?_
        · simpa [hka] using hk
        · exact fun kv hkv => hnum kv (List.mem_cons_of_mem _ hkv)

/-! ### Shape of the pipeline outputs -/

theorem erf_ok_shape {now : ℤ} {p : ReviewPayload} {db : ReviewDB} {fs : Features}
    (h : engineer_review_features now p db = Except.ok fs) :
    ∃ (ua : Option ℚ) (age : ℚ) (beh : ℕ × ℕ × ℕ) (ipf : ℕ × ℕ) (devf : ℕ × ℕ)
      (prodf : ℕ × ℚ),
      fs = [("review_text", FeatVal.str (p.review_text.getD ""))] ++
        textFeats (p.review_text.getD "") ++
        ratingFeats (p.rating.getD 3) ua ++
        [("account_age_days", FeatVal.num age)] ++
        [("user_30d_review_count", FeatVal.num beh.1),
         ("user_7d_review_count", FeatVal.num beh.2.1),
         ("user_1h_review_count", FeatVal.num beh.2.2)] ++
        [("ip_30d_review_count", FeatVal.num ipf.1),
         ("ip_unique_users", FeatVal.num ipf.2)] ++
        [("device_review_count", FeatVal.num devf.1),
         ("device_unique_users", FeatVal.num devf.2)] ++
        [("product_review_count", FeatVal.num prodf.1),
         ("product_avg_rating", FeatVal.num prodf.2)] := by
  unfold engineer_review_features at h
  obtain ⟨ua, h1, h⟩ := except_bind_ok h
  obtain ⟨age, h2, h⟩ := except_bind_ok h
  obtain ⟨beh, h3, h⟩ := except_bind_ok h
  obtain ⟨ipf, h4, h⟩ := except_bind_ok h
  obtain ⟨devf, h5, h⟩ := except_bind_ok h
  obtain ⟨prodf, h6, h⟩ := except_bind_ok h
  exact ⟨ua, age, beh, ipf, devf, prodf, (except_pure_ok h).symm⟩

theorem etf_ok_shape {sqrtQ : ℚ → ℚ} {now : ℤ} {p : TxPayload} {db : TxDB}
    {fs : Features} (h : engineer_tx_features sqrtQ now p db = Except.ok fs) :
    ∃ (uf : Features × ℕ) (ipf : ℕ × ℕ) (devSwitch : ℕ) (rolling : ℚ × ℚ)
      (chf : ℕ × ℕ),
      fetchTxUser sqrtQ now (p.amount.getD 0) p db = Except.ok uf ∧
      fs = [("amount", FeatVal.num (p.amount.getD 0)),
        ("currency", FeatVal.str (p.currency.getD "INR")),
        ("channel", FeatVal.str (p.channel.getD "web")),
        ("hour_of_day", FeatVal.num ((Int.fdiv now 3600 % 24 : ℤ) : ℚ)),
        ("is_night_time", FeatVal.num
          (if (Int.fdiv now 3600 % 24 ≥ 0 ∧ Int.fdiv now 3600 % 24 < 6) ∨
              Int.fdiv now 3600 % 24 ≥ 22 then 1 else 0)),
        ("is_weekend", FeatVal.num
          (if (Int.fdiv now 86400 + 3) % 7 ≥ 5 then 1 else 0))] ++
        uf.1 ++
        [("ip_1h_tx", FeatVal.num ipf.1), ("ip_unique_users", FeatVal.num ipf.2),
         ("dev_switch_7d", FeatVal.num devSwitch),
         ("rolling_mean_diff", FeatVal.num rolling.1),
         ("rolling_std", FeatVal.num rolling.2),
         ("channel_mismatch", FeatVal.num chf.1),
         ("channel_freq", FeatVal.num chf.2),
         ("country_mismatch", FeatVal.num 0)] := by
  unfold engineer_tx_features at h
  obtain ⟨uf, h1, h⟩ := except_bind_ok h
  obtain ⟨ipf, h2, h⟩ := except_bind_ok h
  obtain ⟨devSwitch, h3, h⟩ := except_bind_ok h
  obtain ⟨rolling, h4, h⟩ := except_bind_ok h
  obtain ⟨chf, h5, h⟩ := except_bind_ok h
  exact ⟨uf, ipf, devSwitch, rolling, chf, h1, (except_pure_ok h).symm⟩

/-! ### Declared feature keys -/

/-- The declared numeric feature keys of the review entity class
(`review_pipeline.py`; the raw `review_text` string entry is metadata, not
a numeric feature). -/
def reviewFeatureKeys : List String :=
  ["text_len", "word_count", "upper_ratio", "digit_ratio", "punct_ratio",
   "exclaim_ratio", "question_ratio", "avg_word_len", "unique_word_ratio",
   "has_url", "has_email", "repeated_chars", "rating", "rating_deviation",
   "user_avg_rating", "account_age_days", "user_30d_review_count",
   "user_7d_review_count", "user_1h_review_count", "ip_30d_review_count",
   "ip_unique_users", "device_review_count", "device_unique_users",
   "product_review_count", "product_avg_rating"]

/-- The keys of the USER HISTORY + VELOCITY block of the transaction
pipeline. -/
def txUserKeys : List String :=
  ["account_age_days", "user_total_txs", "user_avg_amount", "user_max_amount",
   "user_min_amount", "user_std_amount", "amount_z", "user_1h_tx",
   "user_24h_tx", "user_7d_tx", "user_24h_amount"]

/-- The declared numeric feature keys of the transaction entity class
(`tx_pipeline.py`; the raw `currency` and `channel` string entries are
metadata, not numeric features). -/
def txFeatureKeys : List String :=
  ["amount", "hour_of_day", "is_night_time", "is_weekend"] ++ txUserKeys ++
  ["ip_1h_tx", "ip_unique_users", "dev_switch_7d", "rolling_mean_diff",
   "rolling_std", "channel_mismatch", "channel_freq", "country_mismatch"]

theorem textFeats_keys (t : String) :
    (textFeats t).map Prod.fst =
      ["text_len", "word_count", "upper_ratio", "digit_ratio", "punct_ratio",
       "exclaim_ratio", "question_ratio", "avg_word_len", "unique_word_ratio",
       "has_url", "has_email", "repeated_chars"] := by
  by_cases h1 : t.length > 0 <;> by_cases h2 : pyWords t ≠ [] <;>
    simp [textFeats, h1, h2]

theorem textFeats_allNum (t : String) : allNum (textFeats t) = true := by
  by_cases h1 : t.length > 0 <;> by_cases h2 : pyWords t ≠ [] <;>
    simp [textFeats, h1, h2, allNum, isNum]

theorem ratingFeats_keys (r : ℚ) (ua : Option ℚ) :
    (ratingFeats r ua).map Prod.fst = ["rating", "rating_deviation", "user_avg_rating"] := by
  cases ua with
  | none => rfl
  | some v =>
      by_cases hv : v ≠ 0 <;> simp [ratingFeats, hv]

theorem ratingFeats_allNum (r : ℚ) (ua : Option ℚ) : allNum (ratingFeats r ua) = true := by
  cases ua with
  | none => rfl
  | some v =>
      by_cases hv : v ≠ 0 <;> simp [ratingFeats, hv, allNum, isNum]

theorem txUserStats_keys (sq : ℚ → ℚ) (amt : ℚ) (l : List ℚ) :
    (txUserStats sq amt l).map Prod.fst =
      ["user_total_txs", "user_avg_amount", "user_max_amount", "user_min_amount",
       "user_std_amount", "amount_z"] := by
  cases l <;> rfl

theorem txUserStats_allNum (sq : ℚ → ℚ) (amt : ℚ) (l : List ℚ) :
    allNum (txUserStats sq amt l) = true := by
  cases l <;> rfl

theorem fetchTxUser_ok_props {sqrtQ : ℚ → ℚ} {now : ℤ} {amount : ℚ}
    {p : TxPayload} {db : TxDB} {uf : Features × ℕ}
    (h : fetchTxUser sqrtQ now amount p db = Except.ok uf) :
    uf.1.map Prod.fst = txUserKeys ∧ allNum uf.1 = true := by
  unfold fetchTxUser at h
  cases hpu : p.user_id with
  | none =>
      rw [hpu] at h
      have := except_pure_ok h
      subst this
      exact ⟨rfl, rfl⟩
  | some uid =>
      rw [hpu] at h
      obtain ⟨u, h1, h⟩ := except_bind_ok h
      obtain ⟨amounts, h2, h⟩ := except_bind_ok h
      obtain ⟨c1, h3, h⟩ := except_bind_ok h
      obtain ⟨c24, h4, h⟩ := except_bind_ok h
      obtain ⟨c7, h5, h⟩ := except_bind_ok h
      obtain ⟨s24, h6, h⟩ := except_bind_ok h
      have hh := except_pure_ok h
      subst hh
      constructor
      · simp [List.map_append, txUserStats_keys, txUserKeys]
      · simp only [allNum, List.all_append, Bool.and_eq_true]
        exact ⟨⟨rfl, txUserStats_allNum sqrtQ amount amounts⟩, rfl⟩

theorem allNum_mem {fs : Features} {kv : String × FeatVal}
    (h : allNum fs = true) (hm : kv ∈ fs) : isNum kv.2 = true := by
  simp only [allNum, List.all_eq_true] at h
  exact h kv hm

/-- C3: for every payload and store state on which the pipeline succeeds,
the feature dictionary returned by `engineer_review_features` (resp.
`engineer_tx_features`) contains every declared feature key of its entity
class with a numeric (hence non-null) value; no declared key is ever
missing. -/
theorem claim_C3 :
    (∀ (now : ℤ) (p : ReviewPayload) (db : ReviewDB) (fs : Features),
      engineer_review_features now p db = Except.ok fs →
      ∀ k ∈ reviewFeatureKeys, ∃ q : ℚ, fs.lookup k = some (FeatVal.num q)) ∧
    (∀ (sqrtQ : ℚ → ℚ) (now : ℤ) (p : TxPayload) (db : TxDB) (fs : Features),
      engineer_tx_features sqrtQ now p db = Except.ok fs →
      ∀ k ∈ txFeatureKeys, ∃ q : ℚ, fs.lookup k = some (FeatVal.num q)) := by
  constructor
  · intro now p db fs h k hk
    obtain ⟨ua, age, beh, ipf, devf, prodf, hfs⟩ := erf_ok_shape h
    subst hfs
    apply lookup_num_of
    · have hkeys :
          ([("review_text", FeatVal.str (p.review_text.getD ""))] ++
            textFeats (p.review_text.getD "") ++
            ratingFeats (p.rating.getD 3) ua ++
            [("account_age_days", FeatVal.num age)] ++
            [("user_30d_review_count", FeatVal.num beh.1),
             ("user_7d_review_count", FeatVal.num beh.2.1),
             ("user_1h_review_count", FeatVal.num beh.2.2)] ++
            [("ip_30d_review_count", FeatVal.num ipf.1),
             ("ip_unique_users", FeatVal.num ipf.2)] ++
            [("device_review_count", FeatVal.num devf.1),
             ("device_unique_users", FeatVal.num devf.2)] ++
            [("product_review_count", FeatVal.num prodf.1),
             ("product_avg_rating", FeatVal.num prodf.2)]).map Prod.fst =
          "review_text" :: reviewFeatureKeys := by
        simp only [List.map_append, textFeats_keys, ratingFeats_keys,
          List.map_cons, List.map_nil]
        rfl
      rw [hkeys]
      exact List.mem_cons_of_mem _ hk
    · intro kv hkv hk1
      have hk_ne : k ≠ "review_text" := by
        have hx : ∀ x ∈ reviewFeatureKeys, x ≠ "review_text" := by decide
        exact hx k hk
      simp only [List.append_assoc] at hkv
      rcases List.mem_append.mp hkv with hhead | hrest
      · have hv : kv = ("review_text", FeatVal.str (p.review_text.getD "")) :=
          List.mem_singleton.mp hhead
        rw [hv] at hk1
        exact absurd hk1.symm hk_ne
      · refine allNum_mem ?_ hrest
        simp only [allNum, List.all_append, Bool.and_eq_true]
        exact ⟨textFeats_allNum _, ratingFeats_allNum _ _, rfl, rfl, rfl, rfl, rfl⟩
  · intro sqrtQ now p db fs h k hk
    obtain ⟨uf, ipf, devSw, rolling, chf, hufeq, hfs⟩ := etf_ok_shape h
    obtain ⟨hufkeys, hufnum⟩ := fetchTxUser_ok_props hufeq
    subst hfs
    apply lookup_num_of
    · have hkeys :
          (([("amount", FeatVal.num (p.amount.getD 0)),
            ("currency", FeatVal.str (p.currency.getD "INR")),
            ("channel", FeatVal.str (p.channel.getD "web")),
            ("hour_of_day", FeatVal.num ((Int.fdiv now 3600 % 24 : ℤ) : ℚ)),
            ("is_night_time", FeatVal.num
              (if (Int.fdiv now 3600 % 24 ≥ 0 ∧ Int.fdiv now 3600 % 24 < 6) ∨
                  Int.fdiv now 3600 % 24 ≥ 22 then 1 else 0)),
            ("is_weekend", FeatVal.num
              (if (Int.fdiv now 86400 + 3) % 7 ≥ 5 then 1 else 0))] ++
            uf.1 ++
            [("ip_1h_tx", FeatVal.num ipf.1), ("ip_unique_users", FeatVal.num ipf.2),
             ("dev_switch_7d", FeatVal.num devSw),
             ("rolling_mean_diff", FeatVal.num rolling.1),
             ("rolling_std", FeatVal.num rolling.2),
             ("channel_mismatch", FeatVal.num chf.1),
             ("channel_freq", FeatVal.num chf.2),
             ("country_mismatch", FeatVal.num 0)]).map Prod.fst) =
          ["amount", "currency", "channel", "hour_of_day", "is_night_time",
           "is_weekend"] ++ txUserKeys ++
          ["ip_1h_tx", "ip_unique_users", "dev_switch_7d", "rolling_mean_diff",
           "rolling_std", "channel_mismatch", "channel_freq", "country_mismatch"] := by
        simp only [List.map_append, hufkeys, List.map_cons, List.map_nil]
      rw [hkeys]
      simp only [txFeatureKeys, List.append_assoc, List.mem_append] at hk ⊢
      rcases hk with hk4 | hku | hk8
      · refine Or.inl ?_
        have hx : ∀ x ∈ (["amount", "hour_of_day", "is_night_time",
            "is_weekend"] : List String),
            x ∈ (["amount", "currency", "channel", "hour_of_day", "is_night_time",
              "is_weekend"] : List String) := by decide
        exact hx k hk4
      · exact Or.inr (Or.inl hku)
      · exact Or.inr (Or.inr hk8)
    · intro kv hkv hk1
      have hk_ne : k ≠ "currency" ∧ k ≠ "channel" := by
        have hx : ∀ x ∈ txFeatureKeys, x ≠ "currency" ∧ x ≠ "channel" := by decide
        exact hx k hk
      simp only [List.append_assoc] at hkv
      rcases List.mem_append.mp hkv with hfirst | hrest
      · simp only [List.mem_cons, List.not_mem_nil, or_false] at hfirst
        rcases hfirst with rfl | rfl | rfl | rfl | rfl | rfl
        · rfl
        · exact absurd hk1.symm hk_ne.1
        · exact absurd hk1.symm hk_ne.2
        · rfl
        · rfl
        · rfl
      · rcases List.mem_append.mp hrest with hu | hlast
        · exact allNum_mem hufnum hu
        · simp only [List.mem_cons, List.not_mem_nil, or_false] at hlast
          rcases hlast with rfl | rfl | rfl | rfl | rfl | rfl | rfl | rfl <;> rfl

/-! ### Concrete store states -/

/-- A review store whose every query fails (accessor unavailable). -/
def failingReviewDB : ReviewDB :=
  { avg_rating_excl := fun _ _ => Except.error HErr.historyUnavailable
    user_by_id := fun _ => Except.error HErr.historyUnavailable
    user_reviews_30d := fun _ => Except.error HErr.historyUnavailable
    user_reviews_7d := fun _ => Except.error HErr.historyUnavailable
    user_reviews_1h := fun _ => Except.error HErr.historyUnavailable
    ip_reviews_30d := fun _ => Except.error HErr.historyUnavailable
    ip_unique_users := fun _ => Except.error HErr.historyUnavailable
    device_reviews := fun _ => Except.error HErr.historyUnavailable
    device_unique_users := fun _ => Except.error HErr.historyUnavailable
    product_reviews := fun _ => Except.error HErr.historyUnavailable
    product_avg_rating := fun _ => Except.error HErr.historyUnavailable }

/-- A transaction store whose every query fails. -/
def failingTxDB : TxDB :=
  { user_by_id := fun _ => Except.error HErr.historyUnavailable
    past_amounts := fun _ => Except.error HErr.historyUnavailable
    user_tx_1h := fun _ => Except.error HErr.historyUnavailable
    user_tx_24h := fun _ => Except.error HErr.historyUnavailable
    user_tx_7d := fun _ => Except.error HErr.historyUnavailable
    sum_amount_24h := fun _ => Except.error HErr.historyUnavailable
    ip_tx_1h := fun _ => Except.error HErr.historyUnavailable
    ip_unique_users := fun _ => Except.error HErr.historyUnavailable
    distinct_devices_7d := fun _ => Except.error HErr.historyUnavailable
    recent_amounts_10 := fun _ => Except.error HErr.historyUnavailable
    channel_counts := fun _ => Except.error HErr.historyUnavailable }

/-- An empty-history review store where every query succeeds. -/
def okReviewDB : ReviewDB :=
  { avg_rating_excl := fun _ _ => Except.ok none
    user_by_id := fun _ => Except.ok none
    user_reviews_30d := fun _ => Except.ok 0
    user_reviews_7d := fun _ => Except.ok 0
    user_reviews_1h := fun _ => Except.ok 0
    ip_reviews_30d := fun _ => Except.ok 0
    ip_unique_users := fun _ => Except.ok 0
    device_reviews := fun _ => Except.ok 0
    device_unique_users := fun _ => Except.ok 0
    product_reviews := fun _ => Except.ok 0
    product_avg_rating := fun _ => Except.ok none }

/-- An empty-history transaction store where every query succeeds. -/
def okTxDB : TxDB :=
  { user_by_id := fun _ => Except.ok none
    past_amounts := fun _ => Except.ok []
    user_tx_1h := fun _ => Except.ok 0
    user_tx_24h := fun _ => Except.ok 0
    user_tx_7d := fun _ => Except.ok 0
    sum_amount_24h := fun _ => Except.ok none
    ip_tx_1h := fun _ => Except.ok 0
    ip_unique_users := fun _ => Except.ok 0
    distinct_devices_7d := fun _ => Except.ok 0
    recent_amounts_10 := fun _ => Except.ok []
    channel_counts := fun _ => Except.ok [] }

def reviewWitnessPayload : ReviewPayload :=
  ⟨some "Great product", some 5, some "u1", none, some "10.0.0.1", none, none⟩

def txWitnessPayload : TxPayload :=
  ⟨some 60000, some "INR", some "web", some "u1", some "10.0.0.1", none⟩

theorem claim_C3_witness :
    (∃ fs, engineer_review_features 0 reviewWitnessPayload okReviewDB = Except.ok fs ∧
      (∀ k ∈ reviewFeatureKeys, ∃ q : ℚ, fs.lookup k = some (FeatVal.num q))) ∧
    (∃ fs, engineer_tx_features (fun q => q) 0 txWitnessPayload okTxDB = Except.ok fs ∧
      (∀ k ∈ txFeatureKeys, ∃ q : ℚ, fs.lookup k = some (FeatVal.num q))) := by
  constructor
  · have h : engineer_review_features 0 reviewWitnessPayload okReviewDB =
        Except.ok ((engineer_review_features 0 reviewWitnessPayload
          okReviewDB).toOption.getD []) := by
      with_unfolding_all rfl
    exact ⟨_, h, claim_C3.1 0 reviewWitnessPayload okReviewDB _ h⟩
  · have h : engineer_tx_features (fun q => q) 0 txWitnessPayload okTxDB =
        Except.ok ((engineer_tx_features (fun q => q) 0 txWitnessPayload
          okTxDB).toOption.getD []) := by
      with_unfolding_all rfl
    exact ⟨_, h, claim_C3.2 (fun q => q) 0 txWitnessPayload okTxDB _ h⟩

/-- C8: when the historical store accessor fails during aggregation, both
feature aggregators propagate the retrievable `HistoryUnavailable` error
to the caller — the result is the error, never a zero-filled or partial
feature vector presented as complete. (The hypothesis states that the
payload makes the pipeline touch history at all; a payload with no
subject, IP, device or product performs no query.) -/
theorem claim_C8 :
    (∀ (now : ℤ) (p : ReviewPayload),
      (p.user_id.isSome ∨ p.ip_address.isSome ∨ p.device_fingerprint.isSome ∨
        p.product_id.isSome) →
      engineer_review_features now p failingReviewDB =
        Except.error HErr.historyUnavailable) ∧
    (∀ (sqrtQ : ℚ → ℚ) (now : ℤ) (p : TxPayload),
      (p.user_id.isSome ∨ p.ip_address.isSome) →
      engineer_tx_features sqrtQ now p failingTxDB =
        Except.error HErr.historyUnavailable) := by
  constructor
  · intro now p hp
    obtain ⟨text, rating, uid, rid, ip, dev, prod⟩ := p
    cases uid <;> cases ip <;> cases dev <;> cases prod <;>
      simp_all [engineer_review_features, fetchUserAvg, fetchAccountAge,
        fetchBehavior, fetchIpFeats, fetchDeviceFeats, fetchProductFeats,
        failingReviewDB, Bind.bind, Except.bind, Pure.pure, Except.pure]
  · intro sqrtQ now p hp
    obtain ⟨amount, currency, channel, uid, ip, dev⟩ := p
    cases uid <;> cases ip <;> cases dev <;>
      simp_all [engineer_tx_features, fetchTxUser, fetchTxIp, fetchTxDevice,
        fetchRolling, fetchChannel, failingTxDB, Bind.bind, Except.bind,
        Pure.pure, Except.pure]

theorem claim_C8_witness :
    engineer_review_features 0 reviewWitnessPayload failingReviewDB =
      Except.error HErr.historyUnavailable ∧
    engineer_tx_features (fun q => q) 0 txWitnessPayload failingTxDB =
      Except.error HErr.historyUnavailable :=
  ⟨claim_C8.1 0 reviewWitnessPayload (Or.inl rfl),
   claim_C8.2 (fun q => q) 0 txWitnessPayload (Or.inl rfl)⟩

/-- C9: on a review payload whose text is the empty string, the pipeline
(which guards every ratio by `len(text) > 0` / `if words:`) returns 0 for
`text_len`, all five character-ratio features, `avg_word_len` and
`unique_word_ratio`; the embedding is total, so no division-by-zero
failure occurs. -/
theorem claim_C9 (now : ℤ) (p : ReviewPayload) (db : ReviewDB) (fs : Features)
    (ht : p.review_text = some "")
    (h : engineer_review_features now p db = Except.ok fs) :
    fs.lookup "text_len" = some (FeatVal.num 0) ∧
    fs.lookup "upper_ratio" = some (FeatVal.num 0) ∧
    fs.lookup "digit_ratio" = some (FeatVal.num 0) ∧
    fs.lookup "punct_ratio" = some (FeatVal.num 0) ∧
    fs.lookup "exclaim_ratio" = some (FeatVal.num 0) ∧
    fs.lookup "question_ratio" = some (FeatVal.num 0) ∧
    fs.lookup "avg_word_len" = some (FeatVal.num 0) ∧
    fs.lookup "unique_word_ratio" = some (FeatVal.num 0) := by
  obtain ⟨ua, age, beh, ipf, devf, prodf, hfs⟩ := erf_ok_shape h
  subst hfs
  rw [ht]
  refine ⟨?_, ?_, ?_, ?_, ?_, ?_, ?_, ?_⟩ <;>
    (apply lookup_append_some
     apply lookup_append_some
     apply lookup_append_some
     apply lookup_append_some
     apply lookup_append_some
     apply lookup_append_some
     with_unfolding_all decide)

def emptyTextPayload : ReviewPayload :=
  ⟨some "", none, none, none, none, none, none⟩

theorem claim_C9_witness :
    ∃ fs, engineer_review_features 0 emptyTextPayload okReviewDB = Except.ok fs ∧
      (fs.lookup "text_len" = some (FeatVal.num 0) ∧
       fs.lookup "upper_ratio" = some (FeatVal.num 0) ∧
       fs.lookup "digit_ratio" = some (FeatVal.num 0) ∧
       fs.lookup "punct_ratio" = some (FeatVal.num 0) ∧
       fs.lookup "exclaim_ratio" = some (FeatVal.num 0) ∧
       fs.lookup "question_ratio" = some (FeatVal.num 0) ∧
       fs.lookup "avg_word_len" = some (FeatVal.num 0) ∧
       fs.lookup "unique_word_ratio" = some (FeatVal.num 0)) := by
  have h : engineer_review_features 0 emptyTextPayload okReviewDB =
      Except.ok ((engineer_review_features 0 emptyTextPayload
        okReviewDB).toOption.getD []) := by
    with_unfolding_all rfl
  exact ⟨_, h, claim_C9 0 emptyTextPayload okReviewDB _ rfl h⟩

/-- `txRuleTable` without the geographic-mismatch rule. -/
def txRuleTableNoGeo : List Rule :=
  [⟨fun f => getNum f "amount" 0 > 50000, by infer_instance, 0.25, highValueReason⟩,
   ⟨fun f => ¬ getNum f "amount" 0 > 50000 ∧ getNum f "amount" 0 > 20000,
      by infer_instance, 0.10, elevatedValueReason⟩,
   ⟨fun f => getNum f "user_1h_tx" 0 > 5, by infer_instance, 0.20, velocityReason⟩,
   ⟨fun f => getNum f "dev_switch_7d" 0 > 5, by infer_instance, 0.15, deviceChurnReason⟩,
   ⟨fun f => |getNum f "amount_z" 0| > 3, by infer_instance, 0.12, amountAnomalyReason⟩,
   ⟨fun f => getNum f "is_night_time" 0 = 1 ∧ getNum f "amount" 0 > 10000,
      by infer_instance, 0.08, nightTimeReason⟩,
   ⟨fun f => getNum f "account_age_days" 999 < 30 ∧ getNum f "amount" 0 > 15000,
      by infer_instance, 0.18, newAccountTxReason⟩,
   ⟨fun f => getNum f "ip_1h_tx" 0 > 10, by infer_instance, 0.10, ipBurstTxReason⟩]

/-- C10: `engineer_tx_features` sets the `country_mismatch` placeholder to
0 on every payload and store state, so `tx_rules` on any vector it
produces never fires the geo-mismatch rule: the geo reason never appears
and the evaluation equals the table without the geo rule (hence no +0.15
geo boost). -/
theorem claim_C10 (sqrtQ : ℚ → ℚ) (now : ℤ) (p : TxPayload) (db : TxDB)
    (fs : Features) (h : engineer_tx_features sqrtQ now p db = Except.ok fs) :
    fs.lookup "country_mismatch" = some (FeatVal.num 0) ∧
    geoMismatchReason ∉ (tx_rules fs).2 ∧
    tx_rules fs = rulesEval txRuleTableNoGeo fs := by
  obtain ⟨uf, ipf, devSw, rolling, chf, hufeq, hfs⟩ := etf_ok_shape h
  obtain ⟨hufkeys, hufnum⟩ := fetchTxUser_ok_props hufeq
  have hcountry : fs.lookup "country_mismatch" = some (FeatVal.num 0) := by
    subst hfs
    rw [lookup_append_none]
    · simp [List.lookup]
    · rw [lookup_append_none]
      · exact lookup_eq_none_of_not_mem_keys (by rw [hufkeys]; decide)
      · simp [List.lookup]
  have hgeo : getNum fs "country_mismatch" 0 = 0 := by
    simp [getNum, hcountry]
  have heval : rulesEval txRuleTable fs = rulesEval txRuleTableNoGeo fs := by
    simp [rulesEval, txRuleTable, txRuleTableNoGeo, List.filter_cons, hgeo]
  have hrules := (tx_rules_eq_table fs).trans heval
  refine ⟨hcountry, ?_, hrules⟩
  rw [hrules]
  intro hmem
  have hsubl : ((txRuleTableNoGeo.filter (fun r => decide (r.pred fs))).map
      Rule.reason).Sublist (txRuleTableNoGeo.map Rule.reason) :=
    List.Sublist.map _ (List.filter_sublist _)
  have hgm : geoMismatchReason ∈ txRuleTableNoGeo.map Rule.reason :=
    hsubl.subset (by simpa [rulesEval] using hmem)
  revert hgm
  decide

theorem claim_C10_witness :
    ∃ fs, engineer_tx_features (fun q => q) 0 txWitnessPayload okTxDB =
        Except.ok fs ∧
      fs.lookup "country_mismatch" = some (FeatVal.num 0) ∧
      geoMismatchReason ∉ (tx_rules fs).2 := by
  have h : engineer_tx_features (fun q => q) 0 txWitnessPayload okTxDB =
      Except.ok ((engineer_tx_features (fun q => q) 0 txWitnessPayload
        okTxDB).toOption.getD []) := by
    with_unfolding_all rfl
  exact ⟨_, h, (claim_C10 (fun q => q) 0 txWitnessPayload okTxDB _ h).1,
    (claim_C10 (fun q => q) 0 txWitnessPayload okTxDB _ h).2.1⟩

/-- The concrete feature vector of the spec's worked example: rating 5,
the shouting review text (text features computed from the string),
account age 2 days, 9 reviews in 30 days. -/
def c6Features : Features :=
  [("rating", FeatVal.num 5)] ++ textFeats "AMAZING!!! BEST PRODUCT EVER!!!" ++
  [("account_age_days", FeatVal.num 2), ("user_30d_review_count", FeatVal.num 9)]

/-- C6: on the example vector, exactly the new-account-burst (+0.20) and
shouting (+0.05) rules fire, so the boost is 0.25 with both reasons in
declaration order; fusing with model score 0.40 at threshold 0.65 gives
final score 0.65, decision true, confidence low. -/
theorem claim_C6 :
    review_rules c6Features = (0.25, [newAccountBurstReason, shoutingReason]) ∧
    finalScore 0.40 (review_rules c6Features).1 = 0.65 ∧
    (assemble_decision 0.40 0.65 (review_rules c6Features).1
      (review_rules c6Features).2).decision = true ∧
    (assemble_decision 0.40 0.65 (review_rules c6Features).1
      (review_rules c6Features).2).confidence = "low" ∧
    (assemble_decision 0.40 0.65 (review_rules c6Features).1
      (review_rules c6Features).2).score_final = 0.65 := by
  refine ⟨?_, ?_, ?_, ?_, ?_⟩ <;> with_unfolding_all decide
